import Mathlib

/-!
Verification of the Turing Smart Screen driver (`internal/lcd/lcd.go`),
the change-detection cache (`internal/monitor` Base), and the CPU monitor
layout (`internal/monitor/cpu.go`).

Go machine integers are modelled as `Nat` (with explicit `% 256` where the
code casts to `byte`) or as `Int` with truncating division (`Int.tdiv`,
matching Go's `/` on signed integers) where a value can be negative.
Serial I/O is modelled by a step-by-step state machine over an explicit
trace of events, with an environment choosing the outcome of each open,
write and read, mirroring the control flow of the Go code.
-/

/-! ### Command bytes (Rev A protocol, from `lcd.go`) -/

def cmdReset : Nat := 101
def cmdClear : Nat := 102
def cmdScreenOff : Nat := 108
def cmdScreenOn : Nat := 109
def cmdSetBrightness : Nat := 110
def cmdSetOrient : Nat := 121   -- `cmdSetOrientation` in the source
def cmdDisplayBitmap : Nat := 197

/-- The 6-byte HELLO handshake pattern (six bytes of 0x45 = 69),
from `Display.hello`. -/
def helloBytes : List Nat := [69, 69, 69, 69, 69, 69]

/-- The 6-byte command frame built by `Display.sendCommand`:
`buf[0] = byte(x >> 2)`, `buf[1] = byte(((x & 3) << 6) + (y >> 4))`,
`buf[2] = byte(((y & 15) << 4) + (ex >> 6))`,
`buf[3] = byte(((ex & 63) << 2) + (ey >> 8))`, `buf[4] = byte(ey & 255)`,
`buf[5] = cmd`.  The `% 256` model the Go `byte(...)` casts. -/
def frame (cmd x y ex ey : Nat) : List Nat :=
  [ (x / 4) % 256,
    ((x % 4) * 64 + y / 16) % 256,
    ((y % 16) * 16 + ex / 64) % 256,
    ((ex % 64) * 4 + ey / 256) % 256,
    (ey % 256) % 256,
    cmd % 256 ]

/-- Modelled from the spec: the decoder is not part of the repository; §8 of
the spec defines it as the inverse of the §4.2 packing formulas.  Recovers
`(cmd, x, y, ex, ey)` from a 6-byte frame. -/
def decodeFrame (bs : List Nat) : Nat × Nat × Nat × Nat × Nat :=
  let b0 := bs.getD 0 0
  let b1 := bs.getD 1 0
  let b2 := bs.getD 2 0
  let b3 := bs.getD 3 0
  let b4 := bs.getD 4 0
  let b5 := bs.getD 5 0
  (b5, b0 * 4 + b1 / 64, (b1 % 64) * 16 + b2 / 16,
    (b2 % 16) * 64 + b3 / 4, (b3 % 4) * 256 + b4)

/-! ### Pixel codec (RGB565, from `Display.DrawImage`) -/

/-- The two little-endian RGB565 bytes for one pixel, from `DrawImage`:
`r5 = (r >> 11) & 0x1F`, `g6 = (g >> 10) & 0x3F`, `b5 = (b >> 11) & 0x1F`,
`rgb565 = (r5 << 11) | (g6 << 5) | b5`, low byte then high byte.
Channels are the 16-bit values returned by Go's `Color.RGBA`. -/
def rgb565pair (r g b : Nat) : Nat × Nat :=
  let r5 := (r / 2048) % 32
  let g6 := (g / 1024) % 64
  let b5 := (b / 2048) % 32
  let v := r5 * 2048 + g6 * 32 + b5
  (v % 256, v / 256)

/-- Modelled from the spec: no decoder exists in the repository; §8 speaks of
"decoding back to a 0–255 scale" by undoing the 5-6-5 quantization.  Unpacks
the two little-endian bytes and rescales each channel to 0–255 by shifting
(r and b by 3 bits, g by 2 bits). -/
def decode565 (lo hi : Nat) : Nat × Nat × Nat :=
  let v := lo + 256 * hi
  ((v / 2048 % 32) * 8, (v / 32 % 64) * 4, (v % 32) * 8)

/-- C1: packing any command byte and coordinates in [0, 1023] with the
`sendCommand` frame layout and decoding via the inverse formulas recovers
exactly the original `(cmd, x, y, ex, ey)`. -/
theorem frame_roundtrip (cmd x y ex ey : Nat)
    (hc : cmd < 256) (hx : x < 1024) (hy : y < 1024)
    (he : ex < 1024) (hey : ey < 1024) :
    decodeFrame (frame cmd x y ex ey) = (cmd, x, y, ex, ey) := by
  simp only [frame, decodeFrame, Prod.ext_iff, List.getD_cons_zero, List.getD_cons_succ]
  refine ⟨?_, ?_, ?_, ?_, ?_⟩ <;> omega

/-- Witness for C1 at a concrete input. -/
theorem frame_roundtrip_witness :
    decodeFrame (frame 197 1023 512 7 300) = (197, 1023, 512, 7, 300) :=
  frame_roundtrip 197 1023 512 7 300 (by decide) (by decide) (by decide)
    (by decide) (by decide)

/-- C4: encoding a 16-bit-per-channel pixel through the RGB565 codec and
decoding back to a 0–255 scale has per-channel absolute error at most 8 for
red and blue and at most 4 for green, relative to the channel's own 0–255
value (its high byte). -/
theorem rgb565_error_bound (r g b : Nat)
    (hr : r < 65536) (hg : g < 65536) (hb : b < 65536) :
    ((r / 256 : Int) -
        (decode565 (rgb565pair r g b).1 (rgb565pair r g b).2).1).natAbs ≤ 8 ∧
    ((g / 256 : Int) -
        (decode565 (rgb565pair r g b).1 (rgb565pair r g b).2).2.1).natAbs ≤ 4 ∧
    ((b / 256 : Int) -
        (decode565 (rgb565pair r g b).1 (rgb565pair r g b).2).2.2).natAbs ≤ 8 := by
  simp only [rgb565pair, decode565]
  refine ⟨?_, ?_, ?_⟩ <;> omega

/-- Witness for C4 at a concrete input. -/
theorem rgb565_error_bound_witness :
    ((65535 / 256 : Int) -
        (decode565 (rgb565pair 65535 33000 1).1 (rgb565pair 65535 33000 1).2).1).natAbs ≤ 8 ∧
    ((33000 / 256 : Int) -
        (decode565 (rgb565pair 65535 33000 1).1 (rgb565pair 65535 33000 1).2).2.1).natAbs ≤ 4 ∧
    ((1 / 256 : Int) -
        (decode565 (rgb565pair 65535 33000 1).1 (rgb565pair 65535 33000 1).2).2.2).natAbs ≤ 8 :=
  rgb565_error_bound 65535 33000 1 (by decide) (by decide) (by decide)

/-! ### Region cache (`Base.Changed` / `Base.ChangedFloat` in
`internal/monitor`).  Go's `map[string]any` is modelled as an association
list (latest binding first); `float64` values are modelled as `ℚ`, the
claims being about exact real arithmetic on the stored values. -/

/-- A cache value: a float (`float64`, modelled as `ℚ`) or some other value
(the `Changed` path stores strings); the `.(float64)` type assertion in
`ChangedFloat` succeeds only on the float case. -/
inductive CV where
  | fv (q : ℚ)
  | sv (s : String)
deriving DecidableEq

def Cache : Type := List (String × CV)

/-- `b.cache[key].(float64)`: the stored float for `key`, if the key is
present and holds a float. -/
def lookupF (c : Cache) (k : String) : Option ℚ :=
  match c.find? (fun e => e.1 == k) with
  | some (_, CV.fv q) => some q
  | _ => none

/-- `Base.ChangedFloat`: returns `false` (and stores nothing) when a float
is cached for `key` and `|value - prev| < threshold`; otherwise stores
`value` and returns `true`. -/
def changedFloat (c : Cache) (k : String) (v t : ℚ) : Bool × Cache :=
  match lookupF c k with
  | some prev => if |v - prev| < t then (false, c) else (true, (k, CV.fv v) :: c)
  | none => (true, (k, CV.fv v) :: c)

/-- C7: with threshold `t > 0`, a first `ChangedFloat key v t` returns true;
after it, `ChangedFloat key (v + t/2) t` returns false and
`ChangedFloat key (v + 2t) t` returns true; in general, whenever a float
`prev` is cached for `key`, a call returns false exactly when the absolute
difference from `prev` is below `t`. -/
theorem changedFloat_threshold (k : String) (v t : ℚ) (ht : 0 < t) :
    (changedFloat [] k v t).1 = true ∧
    (changedFloat (changedFloat [] k v t).2 k (v + t / 2) t).1 = false ∧
    (changedFloat (changedFloat [] k v t).2 k (v + 2 * t) t).1 = true ∧
    ∀ (c : Cache) (prev w : ℚ), lookupF c k = some prev →
      ((changedFloat c k w t).1 = false ↔ |w - prev| < t) := by
  have hbase : lookupF [] k = none := rfl
  have hlk : lookupF ((k, CV.fv v) :: []) k = some v := by
    simp [lookupF, List.find?]
  refine ⟨?_, ?_, ?_, ?_⟩
  · simp [changedFloat, hbase]
  · have h2 : |t / 2| < t := by
      rw [abs_of_pos (by linarith)]
      linarith
    simp [changedFloat, hbase, hlk, h2]
  · have h3 : ¬ |2 * t| < t := by
      rw [abs_of_pos (by linarith)]
      linarith
    simp [changedFloat, hbase, hlk, h3]
  · intro c prev w hc
    simp only [changedFloat, hc]
    constructor
    · intro h
      by_contra habs
      simp [if_neg habs] at h
    · intro h
      simp [if_pos h]

/-- Witness for C7 at a concrete input. -/
theorem changedFloat_threshold_witness :
    (changedFloat [] "freq" 10 1).1 = true ∧
    (changedFloat (changedFloat [] "freq" 10 1).2 "freq" (10 + 1 / 2) 1).1 = false ∧
    (changedFloat (changedFloat [] "freq" 10 1).2 "freq" (10 + 2 * 1) 1).1 = true :=
  have h := changedFloat_threshold "freq" 10 1 (by norm_num)
  ⟨h.1, h.2.1, h.2.2.1⟩

/-- C10: whenever `ChangedFloat` returns false, the whole cache (in
particular the entry for `key`) is left unchanged: the baseline only moves
on calls that return true. -/
theorem changedFloat_false_preserves_cache (c : Cache) (k : String) (v t : ℚ)
    (h : (changedFloat c k v t).1 = false) :
    (changedFloat c k v t).2 = c := by
  unfold changedFloat at h ⊢
  cases hl : lookupF c k with
  | none => simp [hl] at h
  | some prev =>
    simp only [hl] at h ⊢
    by_cases hd : |v - prev| < t
    · simp [hd]
    · simp [hd] at h

/-- Witness for C10 at a concrete input. -/
theorem changedFloat_false_preserves_cache_witness :
    (changedFloat [("cpu", CV.fv 50)] "cpu" (101 / 2) 1).2
      = [("cpu", CV.fv 50)] :=
  changedFloat_false_preserves_cache [("cpu", CV.fv 50)] "cpu" (101 / 2) 1
    (by norm_num [changedFloat, lookupF, List.find?, abs_lt])

/-! ### Transport session (`Display` in `internal/lcd/lcd.go`).

Serial I/O is modelled by explicit state passing.  An `Env` fixes the
outcome of the k-th open, the k-th write and the k-th read, so one `Env`
is one run of the code against one (possibly faulty) device; the trace
records every event the transport would observe.  Channel handles model
`serial.Port` values: `port = none` is `d.port == nil`, and a handle in
`closedChans` is a port whose `Close()` has run (further writes and closes
on it fail with the library's port-closed error, transmitting nothing). -/

inductive Ev where
  | openedEv
  | wroteEv (bs : List Nat)
  | readEv (responded : Bool)
  | closedChanEv
  | sleptEv (secs : Nat)
deriving DecidableEq

structure Env where
  openOk : Nat → Bool
  writeOk : Nat → Bool
  readOk : Nat → Bool

structure St where
  trace : List Ev
  port : Option Nat
  nextHandle : Nat
  closedChans : List Nat
  nOpens : Nat
  nWrites : Nat
  nReads : Nat
  orient : Nat

def initSt : St := ⟨[], none, 0, [], 0, 0, 0, 0⟩

/-- `Display.openSerial`: open the channel (baud rate and read timeout are
fixed framing parameters with no further effect on control flow; a
`SetReadTimeout` failure is folded into the open outcome). -/
def openSerialM (e : Env) (s : St) : St × Bool :=
  if e.openOk s.nOpens then
    ({ s with
        trace := s.trace ++ [Ev.openedEv]
        port := some s.nextHandle
        nextHandle := s.nextHandle + 1
        nOpens := s.nOpens + 1 }, true)
  else ({ s with nOpens := s.nOpens + 1 }, false)

/-- `d.port.Write(bs)`: fails without transmitting when the port is nil or
its channel already closed; otherwise the `Env` decides the outcome. -/
def writeM (e : Env) (s : St) (bs : List Nat) : St × Bool :=
  match s.port with
  | none => (s, false)
  | some h =>
    if h ∈ s.closedChans then (s, false)
    else if e.writeOk s.nWrites then
      ({ s with trace := s.trace ++ [Ev.wroteEv bs], nWrites := s.nWrites + 1 }, true)
    else ({ s with nWrites := s.nWrites + 1 }, false)

/-- `d.port.Read(buf)` in `hello`: the read happens, and both its byte count
and its error are discarded by the caller; the trace records whether the
device responded. -/
def readM (e : Env) (s : St) : St :=
  { s with trace := s.trace ++ [Ev.readEv (e.readOk s.nReads)], nReads := s.nReads + 1 }

/-- `Display.hello`: write six 0x45 bytes, fail on a write error, then read
and ignore the response. -/
def helloM (e : Env) (s : St) : St × Bool :=
  let p := writeM e s helloBytes
  if p.2 then (readM e p.1, true) else (p.1, false)

/-- `Display.sendCommand`: write one 6-byte frame. -/
def sendCommandM (e : Env) (s : St) (cmd x y ex ey : Nat) : St × Bool :=
  writeM e s (frame cmd x y ex ey)

/-- `port.Close()` on channel `h`: closing an already-closed channel returns
the library's port-closed error and has no effect. -/
def closeChanM (s : St) (h : Nat) : St × Bool :=
  if h ∈ s.closedChans then (s, false)
  else
    ({ s with
        trace := s.trace ++ [Ev.closedChanEv]
        closedChans := h :: s.closedChans }, true)

/-- `Display.Close`: if `d.port != nil`, send ScreenOff (result discarded)
and return the result of `d.port.Close()`; note the port field is *not*
cleared. -/
def closeM (e : Env) (s : St) : St × Bool :=
  match s.port with
  | none => (s, true)
  | some h =>
    let p := sendCommandM e s cmdScreenOff 0 0 0 0
    closeChanM p.1 h

/-- `Display.Reset`: send the Reset frame; on success close the channel
(result discarded), clear the port field, sleep 5 seconds, and reopen. -/
def resetM (e : Env) (s : St) : St × Bool :=
  let p := sendCommandM e s cmdReset 0 0 0 0
  if p.2 then
    let s1 := match p.1.port with
      | some h => { (closeChanM p.1 h).1 with port := none }
      | none => p.1
    openSerialM e { s1 with trace := s1.trace ++ [Ev.sleptEv 5] }
  else (p.1, false)

/-- `Display.SetOrientation`: record the orientation, then send it in the x
field of a command frame. -/
def setOrientM (e : Env) (s : St) (o : Nat) : St × Bool :=
  sendCommandM e { s with orient := o } cmdSetOrient o 0 0 0

/-- The clamping of `SetBrightness`:
`if level < 0 { level = 0 }; if level > 100 { level = 100 }`. -/
def clampLevel (level : Int) : Int :=
  if level < 0 then 0 else if level > 100 then 100 else level

/-- `levelAbsolute := 255 - ((level * 255) / 100)` after clamping
(`Int.tdiv` is Go's truncating division). -/
def levelAbsolute (level : Int) : Int :=
  255 - Int.tdiv (clampLevel level * 255) 100

/-- `Display.SetBrightness`. -/
def setBrightnessM (e : Env) (s : St) (level : Int) : St × Bool :=
  sendCommandM e s cmdSetBrightness (levelAbsolute level).toNat 0 0 0

/-- `Display.ScreenOn`. -/
def screenOnM (e : Env) (s : St) : St × Bool :=
  sendCommandM e s cmdScreenOn 0 0 0 0

structure LcdConfig where
  brightness : Int
  orient : Nat

/-- `lcd.New`: open, hello, reset (close + 5 s sleep + reopen), hello,
orientation, brightness, screen on; any failure after the first open runs
`d.Close()` (result discarded) and reports the error. -/
def runNew (e : Env) (cfg : LcdConfig) : St × Bool :=
  let p1 := openSerialM e initSt
  if p1.2 then
    let p2 := helloM e p1.1
    if p2.2 then
      let p3 := resetM e p2.1
      if p3.2 then
        let p4 := helloM e p3.1
        if p4.2 then
          let p5 := setOrientM e p4.1 cfg.orient
          if p5.2 then
            let p6 := setBrightnessM e p5.1 cfg.brightness
            if p6.2 then
              let p7 := screenOnM e p6.1
              if p7.2 then (p7.1, true) else ((closeM e p7.1).1, false)
            else ((closeM e p6.1).1, false)
          else ((closeM e p5.1).1, false)
        else ((closeM e p4.1).1, false)
      else ((closeM e p3.1).1, false)
    else ((closeM e p2.1).1, false)
  else (p1.1, false)

/-- Projection of a trace onto what a capturing transport records:
the writes and the sleeps. -/
def wires (tr : List Ev) : List Ev :=
  tr.filter (fun ev => match ev with
    | Ev.wroteEv _ => true
    | Ev.sleptEv _ => true
    | _ => false)

/-- An environment in which every open and write succeeds and every read
gets a response. -/
def envAllOk : Env := ⟨fun _ => true, fun _ => true, fun _ => true⟩

/-- An environment in which every open and write succeeds but the device
never responds to a read (each 1-second handshake read times out). -/
def envNoResponse : Env := ⟨fun _ => true, fun _ => true, fun _ => false⟩

lemma runNew_ok_iff (e : Env) (cfg : LcdConfig) :
    (runNew e cfg).2 = true ↔
      (e.openOk 0 = true ∧ e.writeOk 0 = true ∧ e.writeOk 1 = true ∧
       e.openOk 1 = true ∧ e.writeOk 2 = true ∧ e.writeOk 3 = true ∧
       e.writeOk 4 = true ∧ e.writeOk 5 = true) := by
  cases h0 : e.openOk 0
  · simp [runNew, openSerialM, helloM, writeM, readM, sendCommandM, resetM,
      closeChanM, closeM, setOrientM, setBrightnessM, screenOnM, initSt, h0]
  · cases h1 : e.writeOk 0
    · simp [runNew, openSerialM, helloM, writeM, readM, sendCommandM, resetM,
        closeChanM, closeM, setOrientM, setBrightnessM, screenOnM, initSt, h0, h1]
    · cases h2 : e.writeOk 1
      · simp [runNew, openSerialM, helloM, writeM, readM, sendCommandM, resetM,
          closeChanM, closeM, setOrientM, setBrightnessM, screenOnM, initSt, h0, h1, h2]
      · cases h3 : e.openOk 1
        · simp [runNew, openSerialM, helloM, writeM, readM, sendCommandM, resetM,
            closeChanM, closeM, setOrientM, setBrightnessM, screenOnM, initSt,
            h0, h1, h2, h3]
        · cases h4 : e.writeOk 2
          · simp [runNew, openSerialM, helloM, writeM, readM, sendCommandM, resetM,
              closeChanM, closeM, setOrientM, setBrightnessM, screenOnM, initSt,
              h0, h1, h2, h3, h4]
          · cases h5 : e.writeOk 3
            · simp [runNew, openSerialM, helloM, writeM, readM, sendCommandM, resetM,
                closeChanM, closeM, setOrientM, setBrightnessM, screenOnM, initSt,
                h0, h1, h2, h3, h4, h5]
            · cases h6 : e.writeOk 4
              · simp [runNew, openSerialM, helloM, writeM, readM, sendCommandM, resetM,
                  closeChanM, closeM, setOrientM, setBrightnessM, screenOnM, initSt,
                  h0, h1, h2, h3, h4, h5, h6]
              · cases h7 : e.writeOk 5
                · simp [runNew, openSerialM, helloM, writeM, readM, sendCommandM,
                    resetM, closeChanM, closeM, setOrientM, setBrightnessM,
                    screenOnM, initSt, h0, h1, h2, h3, h4, h5, h6, h7]
                · simp [runNew, openSerialM, helloM, writeM, readM, sendCommandM,
                    resetM, closeChanM, closeM, setOrientM, setBrightnessM,
                    screenOnM, initSt, h0, h1, h2, h3, h4, h5, h6, h7]

lemma runNew_trace_of_ok (e : Env) (cfg : LcdConfig)
    (h0 : e.openOk 0 = true) (h1 : e.writeOk 0 = true) (h2 : e.writeOk 1 = true)
    (h3 : e.openOk 1 = true) (h4 : e.writeOk 2 = true) (h5 : e.writeOk 3 = true)
    (h6 : e.writeOk 4 = true) (h7 : e.writeOk 5 = true) :
    wires (runNew e cfg).1.trace =
      [Ev.wroteEv helloBytes, Ev.wroteEv (frame cmdReset 0 0 0 0), Ev.sleptEv 5,
       Ev.wroteEv helloBytes, Ev.wroteEv (frame cmdSetOrient cfg.orient 0 0 0),
       Ev.wroteEv (frame cmdSetBrightness (levelAbsolute cfg.brightness).toNat 0 0 0),
       Ev.wroteEv (frame cmdScreenOn 0 0 0 0)] := by
  simp [runNew, openSerialM, helloM, writeM, readM, sendCommandM, resetM,
    closeChanM, closeM, setOrientM, setBrightnessM, screenOnM, initSt, wires,
    h0, h1, h2, h3, h4, h5, h6, h7]

/-- C2: every successful `lcd.New` run issues, in order and with no other
frames interleaved: the 6-byte handshake, the Reset frame, a 5-second
pause, the handshake again, the SetOrientation frame, the SetBrightness
frame, and the ScreenOn frame. -/
theorem new_protocol_sequence (e : Env) (cfg : LcdConfig)
    (hok : (runNew e cfg).2 = true) :
    wires (runNew e cfg).1.trace =
      [Ev.wroteEv helloBytes, Ev.wroteEv (frame cmdReset 0 0 0 0), Ev.sleptEv 5,
       Ev.wroteEv helloBytes, Ev.wroteEv (frame cmdSetOrient cfg.orient 0 0 0),
       Ev.wroteEv (frame cmdSetBrightness (levelAbsolute cfg.brightness).toNat 0 0 0),
       Ev.wroteEv (frame cmdScreenOn 0 0 0 0)] := by
  obtain ⟨h0, h1, h2, h3, h4, h5, h6, h7⟩ := (runNew_ok_iff e cfg).mp hok
  exact runNew_trace_of_ok e cfg h0 h1 h2 h3 h4 h5 h6 h7

/-- Witness for C2: a concrete all-successful run with the default
brightness 30 and ReverseLandscape (3). -/
theorem new_protocol_sequence_witness :
    wires (runNew envAllOk ⟨30, 3⟩).1.trace =
      [Ev.wroteEv helloBytes, Ev.wroteEv (frame cmdReset 0 0 0 0), Ev.sleptEv 5,
       Ev.wroteEv helloBytes, Ev.wroteEv (frame cmdSetOrient 3 0 0 0),
       Ev.wroteEv (frame cmdSetBrightness (levelAbsolute 30).toNat 0 0 0),
       Ev.wroteEv (frame cmdScreenOn 0 0 0 0)] :=
  new_protocol_sequence envAllOk ⟨30, 3⟩ (by decide)

/-- C3 counterexample: in a run where the device never responds to a read
(every 1-second handshake read times out) but every open and write
succeeds, `lcd.New` still returns a session — `hello` discards both return
values of `d.port.Read(buf)`, so a read timeout cannot fail `New`. -/
theorem new_ok_despite_read_timeout :
    (runNew envNoResponse ⟨30, 3⟩).2 = true ∧
    Ev.readEv false ∈ (runNew envNoResponse ⟨30, 3⟩).1.trace := by
  decide

/-- C3 as amended: `New` fails exactly when the serial open (initial or
after reset) or one of the protocol writes fails, and the outcome of the
handshake reads never affects the result. -/
theorem new_err_iff_open_or_write_err (e : Env) (cfg : LcdConfig) :
    ((runNew e cfg).2 = false ↔
      (e.openOk 0 = false ∨ e.writeOk 0 = false ∨ e.writeOk 1 = false ∨
       e.openOk 1 = false ∨ e.writeOk 2 = false ∨ e.writeOk 3 = false ∨
       e.writeOk 4 = false ∨ e.writeOk 5 = false)) ∧
    (∀ rd : Nat → Bool, (runNew ⟨e.openOk, e.writeOk, rd⟩ cfg).2 = (runNew e cfg).2) := by
  constructor
  · rw [← Bool.not_eq_true, runNew_ok_iff e cfg]
    simp only [not_and_or, Bool.not_eq_true]
  · intro rd
    have hA := runNew_ok_iff ⟨e.openOk, e.writeOk, rd⟩ cfg
    have hB := runNew_ok_iff e cfg
    cases hx : (runNew ⟨e.openOk, e.writeOk, rd⟩ cfg).2 <;>
      cases hy : (runNew e cfg).2 <;> simp_all

/-- A session state with one open channel (handle 0) and no traffic yet. -/
def stOpen : St := ⟨[], some 0, 1, [], 1, 0, 0, 0⟩

/-- A session state whose only channel (handle 0) has already been closed,
with the port field still set — exactly the state `Close` leaves behind. -/
def stClosed : St := ⟨[], some 0, 1, [0], 1, 0, 0, 0⟩

/-- C6: `SetBrightness` sends exactly one command frame; its x coordinate
field holds `255 − (clamp(level,0,100)·255)/100` (truncating division) and
the y, ex, ey fields are zero; a level ≤ 0 sends 255 and a level ≥ 100
sends 0. -/
theorem setBrightness_spec (e : Env) (s : St) (level : Int) (ch : Nat)
    (hport : s.port = some ch) (hopen : ch ∉ s.closedChans)
    (hw : e.writeOk s.nWrites = true) :
    setBrightnessM e s level =
      ({ s with
          trace := s.trace ++
            [Ev.wroteEv (frame cmdSetBrightness (levelAbsolute level).toNat 0 0 0)]
          nWrites := s.nWrites + 1 }, true) ∧
    levelAbsolute level = 255 - Int.tdiv (clampLevel level * 255) 100 ∧
    (level ≤ 0 → levelAbsolute level = 255) ∧
    (100 ≤ level → levelAbsolute level = 0) := by
  refine ⟨?_, rfl, ?_, ?_⟩
  · simp [setBrightnessM, sendCommandM, writeM, hport, hopen, hw]
  · intro hl
    have hc : clampLevel level = 0 := by unfold clampLevel; split_ifs <;> omega
    unfold levelAbsolute
    rw [hc]
    decide
  · intro hl
    have hc : clampLevel level = 100 := by unfold clampLevel; split_ifs <;> omega
    unfold levelAbsolute
    rw [hc]
    decide

/-- Witness for C6 at concrete levels. -/
theorem setBrightness_spec_witness :
    (setBrightnessM envAllOk stOpen 30).2 = true ∧
    levelAbsolute 0 = 255 ∧ levelAbsolute 100 = 0 := by
  have h30 := setBrightness_spec envAllOk stOpen 30 0 rfl (by decide) rfl
  have h0 := setBrightness_spec envAllOk stOpen 0 0 rfl (by decide) rfl
  have h100 := setBrightness_spec envAllOk stOpen 100 0 rfl (by decide) rfl
  exact ⟨by rw [h30.1], h0.2.2.1 le_rfl, h100.2.2.2 le_rfl⟩

/-- C8 counterexample: after a successful `New`, the first `Close` succeeds
but a second `Close` returns an error — `Close` never clears `d.port`, so
it re-runs ScreenOff and `d.port.Close()` on the already-closed channel,
whose close reports the port-closed error. -/
theorem close_twice_errors :
    (closeM envAllOk (runNew envAllOk ⟨30, 3⟩).1).2 = true ∧
    (closeM envAllOk (closeM envAllOk (runNew envAllOk ⟨30, 3⟩).1).1).2 = false := by
  decide

/-- C8 as amended: `Close` with a nil port (the state a failed
`Reset`/`Open` can leave) is a no-op returning nil, and a repeated `Close`
after a successful one leaves the session state — trace included —
completely unchanged and closes no channel again, but returns the
channel's already-closed error instead of nil. -/
theorem close_amended (e : Env) (s : St) :
    (s.port = none → closeM e s = (s, true)) ∧
    (∀ ch : Nat, s.port = some ch → ch ∈ s.closedChans → closeM e s = (s, false)) := by
  constructor
  · intro h
    simp [closeM, h]
  · intro ch hp hc
    simp [closeM, hp, sendCommandM, writeM, hc, closeChanM]

/-- Witness for C8's amended statement at concrete session states. -/
theorem close_amended_witness :
    closeM envAllOk initSt = (initSt, true) ∧
    closeM envAllOk stClosed = (stClosed, false) :=
  ⟨(close_amended envAllOk initSt).1 rfl,
   (close_amended envAllOk stClosed).2 0 rfl (by decide)⟩

/-! ### `Display.DrawImage`.  A Go `image.Image` is modelled by its bounds
size and a pixel function: `px col row` is the 16-bit `(r, g, b)` triple
that `img.At(bounds.Min.X+col, bounds.Min.Y+row).RGBA()` returns. -/

structure Img where
  w : Nat
  h : Nat
  px : Nat → Nat → Nat × Nat × Nat

/-- The two bytes `DrawImage` stores for one pixel. -/
def pixBytes (p : Nat × Nat × Nat) : List Nat :=
  [(rgb565pair p.1 p.2.1 p.2.2).1, (rgb565pair p.1 p.2.1 p.2.2).2]

/-- The pixel payload of `DrawImage`: the nested `for py { for px { ... } }`
loop writing two bytes per pixel into the buffer, row by row. -/
def encodeImg (img : Img) : List Nat :=
  (List.range img.h).flatMap (fun row =>
    (List.range img.w).flatMap (fun col => pixBytes (img.px col row)))

/-- `Display.DrawImage`: empty images are a successful no-op; otherwise the
bitmap header frame with `(x, y, x+w-1, y+h-1)` is sent, then the pixel
payload. -/
def drawImageM (e : Env) (s : St) (img : Img) (x y : Nat) : St × Bool :=
  if img.w = 0 ∨ img.h = 0 then (s, true)
  else
    let p := sendCommandM e s cmdDisplayBitmap x y (x + img.w - 1) (y + img.h - 1)
    if p.2 then writeM e p.1 (encodeImg img) else (p.1, false)

lemma length_encodeImg (img : Img) :
    (encodeImg img).length = img.w * img.h * 2 := by
  unfold encodeImg
  rw [List.length_flatMap]
  have hrow : ∀ row : Nat,
      ((List.range img.w).flatMap (fun col => pixBytes (img.px col row))).length
        = img.w * 2 := by
    intro row
    rw [List.length_flatMap]
    have hpix : ∀ col, (pixBytes (img.px col row)).length = 2 := fun _ => rfl
    simp only [Function.comp_def, hpix, List.map_const', List.sum_replicate,
      List.length_range, smul_eq_mul]
  simp only [Function.comp_def, hrow, List.map_const', List.sum_replicate,
    List.length_range, smul_eq_mul]
  ring

lemma flatMap_range_rowMajor (w : Nat) (hw : 0 < w) (g : Nat → Nat → List Nat) :
    ∀ h : Nat,
      (List.range h).flatMap (fun r => (List.range w).flatMap (fun c => g r c)) =
        (List.range (h * w)).flatMap (fun i => g (i / w) (i % w)) := by
  intro h
  induction h with
  | zero => simp
  | succ n ih =>
    rw [List.range_succ, List.flatMap_append, ih, Nat.succ_mul, List.range_add,
      List.flatMap_append, List.flatMap_map]
    congr 1
    have hcong : ∀ c ∈ List.range w,
        g ((n * w + c) / w) ((n * w + c) % w) = g n c := by
      intro c hc
      rw [List.mem_range] at hc
      have h1 : n * w + c = c + w * n := by ring
      have hd : (n * w + c) / w = n := by
        rw [h1, Nat.add_mul_div_left c n hw, Nat.div_eq_of_lt hc, Nat.zero_add]
      have hm : (n * w + c) % w = c := by
        rw [h1, Nat.add_mul_mod_self_left, Nat.mod_eq_of_lt hc]
      rw [hd, hm]
    simp only [List.flatMap_cons, List.flatMap_nil, List.append_nil]
    exact (List.flatMap_congr hcong).symm

/-- C5: `DrawImage` of an image with zero width or height writes nothing and
succeeds; otherwise it writes exactly the bitmap-header frame carrying
`(x, y, x+w-1, y+h-1)` followed immediately by a pixel payload of exactly
`w*h*2` bytes holding the pixels in row-major order. -/
theorem drawImage_spec (e : Env) (s : St) (img : Img) (x y ch : Nat)
    (hport : s.port = some ch) (hopen : ch ∉ s.closedChans)
    (hw1 : e.writeOk s.nWrites = true) (hw2 : e.writeOk (s.nWrites + 1) = true) :
    (img.w = 0 ∨ img.h = 0 → drawImageM e s img x y = (s, true)) ∧
    (0 < img.w → 0 < img.h →
      (drawImageM e s img x y).2 = true ∧
      (drawImageM e s img x y).1.trace = s.trace ++
        [Ev.wroteEv (frame cmdDisplayBitmap x y (x + img.w - 1) (y + img.h - 1)),
         Ev.wroteEv (encodeImg img)] ∧
      (encodeImg img).length = img.w * img.h * 2 ∧
      encodeImg img = (List.range (img.h * img.w)).flatMap
        (fun i => pixBytes (img.px (i % img.w) (i / img.w)))) := by
  constructor
  · intro hz
    simp [drawImageM, hz]
  · intro hwpos hhpos
    have hnz : ¬ (img.w = 0 ∨ img.h = 0) := by omega
    refine ⟨?_, ?_, length_encodeImg img, ?_⟩
    · simp [drawImageM, hnz, sendCommandM, writeM, hport, hopen, hw1, hw2]
    · simp [drawImageM, hnz, sendCommandM, writeM, hport, hopen, hw1, hw2]
    · exact flatMap_range_rowMajor img.w hwpos (fun r c => pixBytes (img.px c r)) img.h

/-- Witness for C5: a 0-width image is a no-op; a 2×2 image draws
successfully. -/
theorem drawImage_spec_witness :
    drawImageM envAllOk stOpen ⟨0, 5, fun _ _ => (0, 0, 0)⟩ 3 4 = (stOpen, true) ∧
    (drawImageM envAllOk stOpen ⟨2, 2, fun _ _ => (40000, 20000, 10000)⟩ 3 4).2 = true := by
  have hz := drawImage_spec envAllOk stOpen ⟨0, 5, fun _ _ => (0, 0, 0)⟩ 3 4 0
    rfl (by decide) rfl rfl
  have hp := drawImage_spec envAllOk stOpen ⟨2, 2, fun _ _ => (40000, 20000, 10000)⟩ 3 4 0
    rfl (by decide) rfl rfl
  exact ⟨hz.1 (Or.inl rfl), (hp.2 (by decide) (by decide)).1⟩

/-! ### CPU monitor layout (`internal/monitor/cpu.go`).

The monitor runs on the default panel (`DefaultConfig`: 320×480 physical,
ReverseLandscape), whose logical size — and hence the raster buffer
allocated by `NewBase` — is 480×320.  The layout arithmetic is modelled on
`Nat`: at this panel size and for every core count, all of Go's
intermediate `int` values here are nonnegative and its truncating `/` and
`%` agree with `Nat` division, except for `(barHeight - 18) / 2`, whose
possible negativity is handled explicitly in `cpuPctY`. -/

structure Reg where
  X : Nat
  Y : Nat
  W : Nat
  H : Nat
deriving DecidableEq

/-- A region lies fully within a `w`×`h` buffer (the claim's
`0 ≤ X, 0 ≤ Y, X+W ≤ w, Y+H ≤ h`; the first two are stated even though
`Nat` makes them automatic). -/
def inBounds (r : Reg) (w h : Nat) : Prop :=
  0 ≤ r.X ∧ 0 ≤ r.Y ∧ r.X + r.W ≤ w ∧ r.Y + r.H ≤ h

instance (r : Reg) (w h : Nat) : Decidable (inBounds r w h) := by
  unfold inBounds
  infer_instance

/-- `setupLayout`: columns from the core count. -/
def cpuCols (n : Nat) : Nat := if n ≤ 8 then 1 else if n ≤ 16 then 2 else 4

/-- `setupLayout`: `rows := (cpuCount + cols - 1) / cols`. -/
def cpuRows (n : Nat) : Nat := (n + cpuCols n - 1) / cpuCols n

/-- `setupLayout`: `barHeight := (availableHeight - 30) / rows` with
`availableHeight := Height() - 68 - 40`, clamped to [12, 35]. -/
def cpuBarHeight (hgt n : Nat) : Nat :=
  let bh := (hgt - 68 - 40 - 30) / cpuRows n
  let bh2 := if bh < 12 then 12 else bh
  if bh2 > 35 then 35 else bh2

/-- `setupLayout`: `overallY := Height() - 35`. -/
def cpuOverallY (hgt : Nat) : Nat := hgt - 35

/-- `update`: `colWidth := (Width() - 10) / cols`. -/
def cpuColWidth (w n : Nat) : Nat := (w - 10) / cpuCols n

/-- `update`: `x := 5 + (i % cols) * colWidth`. -/
def cpuX (w n i : Nat) : Nat := 5 + i % cpuCols n * cpuColWidth w n

/-- `update`: `y := 68 + (i / cols) * (barHeight + barSpacing)`,
`barSpacing := 3`. -/
def cpuY (hgt n i : Nat) : Nat :=
  68 + i / cpuCols n * (cpuBarHeight hgt n + 3)

/-- `update`: the y coordinate `y + (barHeight-18)/2` of the per-core
percentage region.  Go divides truncating toward zero, so for
`barHeight < 18` the offset is `-((18-barHeight)/2)`; `y ≥ 68` keeps the
`Nat` subtraction exact. -/
def cpuPctY (hgt n i : Nat) : Nat :=
  if 18 ≤ cpuBarHeight hgt n then
    cpuY hgt n i + (cpuBarHeight hgt n - 18) / 2
  else
    cpuY hgt n i - (18 - cpuBarHeight hgt n) / 2

/-- `update`: the header region `{5, 8, Width()-10, 24}`. -/
def headerReg (w : Nat) : Reg := ⟨5, 8, w - 10, 24⟩

/-- `update`: the frequency region `{5, 38, 180, 20}`. -/
def freqReg : Reg := ⟨5, 38, 180, 20⟩

/-- `update`: the load-average region `{190, 38, 280, 20}`. -/
def loadReg : Reg := ⟨190, 38, 280, 20⟩

/-- `update`: per-core percentage text region
`{x, y + (barHeight-18)/2, 38, 20}` (`pctWidth := 38`). -/
def cpuPctReg (w hgt n i : Nat) : Reg :=
  ⟨cpuX w n i, cpuPctY hgt n i, 38, 20⟩

/-- `update`: per-core bar region
`{x + pctWidth + 4, y, colWidth - pctWidth - 8, barHeight - 1}`. -/
def cpuBarReg (w hgt n i : Nat) : Reg :=
  ⟨cpuX w n i + 38 + 4, cpuY hgt n i, cpuColWidth w n - 38 - 8,
    cpuBarHeight hgt n - 1⟩

/-- `update`: the overall-usage bar region `{45, overallY, Width()-120, 24}`. -/
def overallBarReg (w hgt : Nat) : Reg := ⟨45, cpuOverallY hgt, w - 120, 24⟩

/-- `update`: the overall percentage region `{Width()-70, overallY, 65, 24}`. -/
def overallPctReg (w hgt : Nat) : Reg := ⟨w - 70, cpuOverallY hgt, 65, 24⟩

/-- Every region `update` can pass to `DrawRegion` in one tick, for a
monitor with `n` cores on a `w`×`hgt` logical panel (whether a region is
actually sent depends on the cache, so bounds must hold for all of them). -/
def cpuUpdateRegs (w hgt n : Nat) : List Reg :=
  [headerReg w, freqReg, loadReg] ++
  (List.range n).flatMap
    (fun i => [cpuPctReg w hgt n i, cpuBarReg w hgt n i]) ++
  [overallBarReg w hgt, overallPctReg w hgt]

/-- C9 counterexample: with 80 cores on the default 480×320 logical panel,
the bar region of core 76 (column 0, row 19) is among the regions the
update loop passes to `DrawRegion`, and its bottom edge (`Y + H = 353 + 11
= 364`) lies below the 320-pixel-high raster buffer. -/
theorem cpu_region_out_of_bounds :
    cpuBarReg 480 320 80 76 ∈ cpuUpdateRegs 480 320 80 ∧
    ¬ inBounds (cpuBarReg 480 320 80 76) 480 320 := by
  decide

set_option maxRecDepth 100000 in
/-- C9 as amended: on the default 480×320 logical panel, for every core
count up to 64 every region the update loop can pass to `DrawRegion` lies
fully within the raster buffer; from 65 cores on (17 bar rows at the
minimum bar height of 12) the lowest bar rows leave the buffer. -/
theorem cpu_regions_in_bounds (n : Nat) (hn : n ≤ 64) :
    ∀ r ∈ cpuUpdateRegs 480 320 n, inBounds r 480 320 := by
  have hall : ∀ m : Nat, m < 65 → ∀ r ∈ cpuUpdateRegs 480 320 m, inBounds r 480 320 := by
    decide
  exact hall n (by omega)

/-- Witness for C9's amended statement: the last core's bar region at the
maximal in-bounds core count. -/
theorem cpu_regions_in_bounds_witness :
    inBounds (cpuBarReg 480 320 64 63) 480 320 :=
  cpu_regions_in_bounds 64 (by decide) (cpuBarReg 480 320 64 63) (by decide)
